import Mathlib

/-!
# Verification of the BlockID identity registry

Shallow embedding of the `BlockID` smart contract (`contract BlockID is
Ownable`) — the identity-registry state machine — together with proofs about
its registry operations.

Modelling conventions:

* Addresses, 32-byte hashes, timestamps and id numbers are `Nat`; `0` plays
  the role of the zero address / zero-hash / "no entity" sentinel, exactly as
  in the source.
* Solidity storage mappings are total functions returning the all-zero
  default value for unset keys (`Identity.empty`, `IDRequest.empty`, `0`,
  `false`, `[]`); `delete` writes the default value back.
* Each external function of the contract becomes a Lean function
  `args → State → Except Err α × State`, translated `require`-by-`require`
  in source order.  A failed `require` returns the error *together with the
  state as it stands at that program point*, so "a reverting call leaves the
  state unchanged" is a provable property of the translation (all checks
  precede all writes in the source), not something built into the monad.
* `msg.sender` becomes an explicit `sender` argument, `block.timestamp` an
  explicit `now` argument.
* The `Ownable` owner is the `contractOwner` field, fixed at construction;
  the registry operations modelled are the mutating entry points declared by
  `BlockID` itself.
-/

namespace BlockID

/-- Pointwise update of a `Nat`-keyed storage mapping. -/
def upd {α : Type} (m : Nat → α) (k : Nat) (v : α) : Nat → α :=
  fun k' => if k' = k then v else m k'

/-- The `Identity` struct of the contract. -/
structure Identity where
  owner : Nat
  ipfsHash : String
  createdAt : Nat
  expiresAt : Nat
  isVerified : Bool
  idType : String
  uniqueIdentityHash : Nat
  deriving Repr, DecidableEq

/-- Default value of the `identities` mapping; also the result of
`delete identities[idNumber]`. -/
def Identity.empty : Identity :=
  { owner := 0, ipfsHash := "", createdAt := 0, expiresAt := 0,
    isVerified := false, idType := "", uniqueIdentityHash := 0 }

/-- The `IDRequest` struct of the contract.  Note that it has no `idType`
field: the type declared at request time is not persisted. -/
structure IDRequest where
  requester : Nat
  ipfsHash : String
  requestedAt : Nat
  uniqueIdentityHash : Nat
  isPending : Bool
  isApproved : Bool
  isRejected : Bool
  deriving Repr, DecidableEq

/-- Default value of the `idRequests` mapping. -/
def IDRequest.empty : IDRequest :=
  { requester := 0, ipfsHash := "", requestedAt := 0, uniqueIdentityHash := 0,
    isPending := false, isApproved := false, isRejected := false }

/-- The events emitted by the contract, in declaration order. -/
inductive Event where
  | IdentityCreated (idNumber owner : Nat) (idType : String) (uniqueIdentityHash : Nat)
  | IdentityVerified (idNumber verifier : Nat)
  | IdentityRevoked (idNumber revokedBy : Nat)
  | VerifierAdded (verifier : Nat)
  | VerifierRemoved (verifier : Nat)
  | AdminChanged (oldAdmin newAdmin : Nat)
  | IDRequested (requestId requester uniqueIdentityHash : Nat)
  | IDRequestApproved (requestId idNumber approvedBy : Nat)
  | IDRequestRejected (requestId rejectedBy : Nat) (reason : String)
  deriving Repr, DecidableEq

/-- Error kinds (the spec's taxonomy), each carrying the revert reason string
of the corresponding `require` in the source. -/
inductive Err where
  | authorization (msg : String)
  | invalidArgument (msg : String)
  | duplicateIdentity (msg : String)
  | duplicateFingerprint (msg : String)
  | duplicatePendingRequest (msg : String)
  | notFound (msg : String)
  | invalidState (msg : String)
  deriving Repr, DecidableEq

/-- The full storage of the contract: the five logical tables, the role
store, the two counters and the (append-only) event log. -/
structure State where
  contractOwner : Nat
  adminWallet : Nat
  identities : Nat → Identity
  walletToId : Nat → Nat
  hashToId : Nat → Nat
  verifiers : Nat → Bool
  requestCounter : Nat
  idRequests : Nat → IDRequest
  userRequests : Nat → List Nat
  idCounter : Nat
  events : List Event

/-- The constructor: `constructor(address _adminWallet) Ownable(msg.sender)`.
`deployer` is `msg.sender`. -/
def initState (deployer adminW : Nat) : State :=
  { contractOwner := deployer
    adminWallet := adminW
    identities := fun _ => Identity.empty
    walletToId := fun _ => 0
    hashToId := fun _ => 0
    verifiers := upd (upd (fun _ => false) deployer true) adminW true
    requestCounter := 0
    idRequests := fun _ => IDRequest.empty
    userRequests := fun _ => []
    idCounter := 0
    events := [.VerifierAdded deployer, .VerifierAdded adminW, .AdminChanged 0 adminW] }

/-- `hasIdentity(address owner)` view. -/
def hasIdentity (s : State) (owner : Nat) : Bool :=
  s.walletToId owner != 0

/-- `isHashRegistered(bytes32 uniqueHash)` view. -/
def isHashRegistered (s : State) (uniqueHash : Nat) : Bool :=
  s.hashToId uniqueHash != 0

/-- `isAdmin(address addr)` view. -/
def isAdmin (s : State) (addr : Nat) : Bool :=
  addr == s.adminWallet

/-- `isVerifier(address verifier)` view. -/
def isVerifier (s : State) (verifier : Nat) : Bool :=
  s.verifiers verifier

/-- The duplicate-pending scan in `requestIdentity`: it walks only
`userRequests[msg.sender]`, the caller's own request-id list. -/
def hasPendingDup (s : State) (sender uniqueHash : Nat) : Bool :=
  (s.userRequests sender).any fun reqId =>
    (s.idRequests reqId).isPending &&
      ((s.idRequests reqId).uniqueIdentityHash == uniqueHash)

/-- `isIdentityValid(uint256 idNumber)` view: exists AND verified AND not
expired.  The source has no `require`: it returns `false` (never reverts) in
every branch, so this is a total `Bool` function. -/
def isIdentityValid (now idNumber : Nat) (s : State) : Bool :=
  if (s.identities idNumber).owner = 0 then false
  else if (s.identities idNumber).isVerified = false then false
  else if (s.identities idNumber).expiresAt > 0 ∧ now > (s.identities idNumber).expiresAt then
    false
  else true

/-- `changeAdmin(address _newAdmin)`, `onlyOwner`. -/
def changeAdmin (sender newAdmin : Nat) (s : State) : Except Err Unit × State :=
  if sender ≠ s.contractOwner then
    (.error (.authorization "Ownable: caller is not the owner"), s)
  else if newAdmin = 0 then
    (.error (.invalidArgument "BlockID: invalid address"), s)
  else
    (.ok (),
      { s with
        adminWallet := newAdmin
        verifiers :=
          if s.verifiers newAdmin then s.verifiers else upd s.verifiers newAdmin true
        events := s.events ++
          (if s.verifiers newAdmin then [] else [.VerifierAdded newAdmin]) ++
          [.AdminChanged s.adminWallet newAdmin] })

/-- `requestIdentity(string ipfsHash, string idType, bytes32 uniqueHash)`.
The `idType` parameter is accepted but — as in the source — never used. -/
def requestIdentity (sender now : Nat) (ipfsHash idType : String) (uniqueHash : Nat)
    (s : State) : Except Err Nat × State :=
  if hasIdentity s sender then
    (.error (.duplicateIdentity "BlockID: wallet already has an ID"), s)
  else if isHashRegistered s uniqueHash then
    (.error (.duplicateFingerprint "BlockID: identity with this hash already exists"), s)
  else if hasPendingDup s sender uniqueHash then
    (.error (.duplicatePendingRequest "BlockID: a request with this hash is already pending"), s)
  else
    let requestId := s.requestCounter + 1
    let req : IDRequest :=
      { requester := sender, ipfsHash := ipfsHash, requestedAt := now,
        uniqueIdentityHash := uniqueHash, isPending := true,
        isApproved := false, isRejected := false }
    (.ok requestId,
      { s with
        requestCounter := requestId
        idRequests := upd s.idRequests requestId req
        userRequests := upd s.userRequests sender (s.userRequests sender ++ [requestId])
        events := s.events ++ [.IDRequested requestId sender uniqueHash] })

/-- `approveIDRequest(uint256 requestId, uint256 expiryDuration)`, `onlyAdmin`. -/
def approveIDRequest (sender now requestId expiryDuration : Nat) (s : State) :
    Except Err Nat × State :=
  if sender ≠ s.adminWallet then
    (.error (.authorization "BlockID: caller is not the admin"), s)
  else if (s.idRequests requestId).requester = 0 then
    (.error (.notFound "BlockID: request does not exist"), s)
  else if (s.idRequests requestId).isPending = false then
    (.error (.invalidState "BlockID: request is not pending"), s)
  else if hasIdentity s (s.idRequests requestId).requester then
    (.error (.duplicateIdentity "BlockID: requester already has an ID"), s)
  else if isHashRegistered s (s.idRequests requestId).uniqueIdentityHash then
    (.error (.duplicateFingerprint "BlockID: identity with this hash already exists"), s)
  else
    let idNumber := s.idCounter + 1
    let ident : Identity :=
      { owner := (s.idRequests requestId).requester
        ipfsHash := (s.idRequests requestId).ipfsHash
        createdAt := now
        expiresAt := if expiryDuration > 0 then now + expiryDuration else 0
        isVerified := true
        idType := "personal_id"
        uniqueIdentityHash := (s.idRequests requestId).uniqueIdentityHash }
    (.ok idNumber,
      { s with
        idCounter := idNumber
        identities := upd s.identities idNumber ident
        walletToId := upd s.walletToId ((s.idRequests requestId).requester) idNumber
        hashToId := upd s.hashToId ((s.idRequests requestId).uniqueIdentityHash) idNumber
        idRequests := upd s.idRequests requestId
          { s.idRequests requestId with isPending := false, isApproved := true }
        events := s.events ++
          [.IDRequestApproved requestId idNumber sender,
           .IdentityCreated idNumber ((s.idRequests requestId).requester) "personal_id"
             ((s.idRequests requestId).uniqueIdentityHash)] })

/-- `rejectIDRequest(uint256 requestId, string reason)`, `onlyAdmin`. -/
def rejectIDRequest (sender requestId : Nat) (reason : String) (s : State) :
    Except Err Unit × State :=
  if sender ≠ s.adminWallet then
    (.error (.authorization "BlockID: caller is not the admin"), s)
  else if (s.idRequests requestId).requester = 0 then
    (.error (.notFound "BlockID: request does not exist"), s)
  else if (s.idRequests requestId).isPending = false then
    (.error (.invalidState "BlockID: request is not pending"), s)
  else
    (.ok (),
      { s with
        idRequests := upd s.idRequests requestId
          { s.idRequests requestId with isPending := false, isRejected := true }
        events := s.events ++ [.IDRequestRejected requestId sender reason] })

/-- `createIdentity(address owner, string ipfsHash, uint256 expiryDuration,
string idType, bytes32 uniqueHash)`, `onlyAdmin` — the direct creation path,
which (unlike approval) honours the caller-supplied `idType`. -/
def createIdentity (sender now owner : Nat) (ipfsHash : String)
    (expiryDuration : Nat) (idType : String) (uniqueHash : Nat) (s : State) :
    Except Err Nat × State :=
  if sender ≠ s.adminWallet then
    (.error (.authorization "BlockID: caller is not the admin"), s)
  else if hasIdentity s owner then
    (.error (.duplicateIdentity "BlockID: wallet already has an ID minted"), s)
  else if isHashRegistered s uniqueHash then
    (.error (.duplicateFingerprint "BlockID: identity with this unique hash already exists"), s)
  else
    let idNumber := s.idCounter + 1
    let expiresAt := if expiryDuration > 0 then now + expiryDuration else 0
    let ident : Identity :=
      { owner := owner, ipfsHash := ipfsHash, createdAt := now,
        expiresAt := expiresAt, isVerified := true,
        idType := idType, uniqueIdentityHash := uniqueHash }
    (.ok idNumber,
      { s with
        idCounter := idNumber
        identities := upd s.identities idNumber ident
        walletToId := upd s.walletToId owner idNumber
        hashToId := upd s.hashToId uniqueHash idNumber
        events := s.events ++ [.IdentityCreated idNumber owner idType uniqueHash] })

/-- `verifyIdentity(uint256 idNumber)`, `onlyVerifier`. -/
def verifyIdentity (sender idNumber : Nat) (s : State) : Except Err Unit × State :=
  if s.verifiers sender = false then
    (.error (.authorization "BlockID: caller is not a verifier"), s)
  else if (s.identities idNumber).owner = 0 then
    (.error (.notFound "BlockID: identity does not exist"), s)
  else if (s.identities idNumber).isVerified then
    (.error (.invalidState "BlockID: identity already verified"), s)
  else
    (.ok (),
      { s with
        identities := upd s.identities idNumber
          { s.identities idNumber with isVerified := true }
        events := s.events ++ [.IdentityVerified idNumber sender] })

/-- `revokeIdentity(uint256 idNumber)`: callable by the identity's owner, any
verifier, the contract owner or the admin. -/
def revokeIdentity (sender idNumber : Nat) (s : State) : Except Err Unit × State :=
  if (s.identities idNumber).owner = 0 then
    (.error (.notFound "BlockID: identity does not exist"), s)
  else if ¬((s.identities idNumber).owner = sender ∨ s.verifiers sender = true ∨
            s.contractOwner = sender ∨ sender = s.adminWallet) then
    (.error (.authorization "BlockID: caller is not authorized"), s)
  else
    (.ok (),
      { s with
        walletToId := upd s.walletToId ((s.identities idNumber).owner) 0
        hashToId := upd s.hashToId ((s.identities idNumber).uniqueIdentityHash) 0
        identities := upd s.identities idNumber Identity.empty
        events := s.events ++ [.IdentityRevoked idNumber sender] })

/-- `updateIdentityData(uint256 idNumber, string newIpfsHash)`: owner or
admin; emits no event. -/
def updateIdentityData (sender idNumber : Nat) (newIpfsHash : String) (s : State) :
    Except Err Unit × State :=
  if (s.identities idNumber).owner = 0 then
    (.error (.notFound "BlockID: identity does not exist"), s)
  else if ¬((s.identities idNumber).owner = sender ∨ sender = s.adminWallet) then
    (.error (.authorization "BlockID: caller is not the owner or admin"), s)
  else
    (.ok (),
      { s with
        identities := upd s.identities idNumber
          { s.identities idNumber with ipfsHash := newIpfsHash } })

/-- `addVerifier(address verifier)`, `onlyAdmin`. -/
def addVerifier (sender verifier : Nat) (s : State) : Except Err Unit × State :=
  if sender ≠ s.adminWallet then
    (.error (.authorization "BlockID: caller is not the admin"), s)
  else if verifier = 0 then
    (.error (.invalidArgument "BlockID: invalid address"), s)
  else if s.verifiers verifier then
    (.error (.invalidState "BlockID: already a verifier"), s)
  else
    (.ok (),
      { s with
        verifiers := upd s.verifiers verifier true
        events := s.events ++ [.VerifierAdded verifier] })

/-- `removeVerifier(address verifier)`, `onlyAdmin`: refuses to strip the
current admin or the contract owner. -/
def removeVerifier (sender verifier : Nat) (s : State) : Except Err Unit × State :=
  if sender ≠ s.adminWallet then
    (.error (.authorization "BlockID: caller is not the admin"), s)
  else if s.verifiers verifier = false then
    (.error (.invalidState "BlockID: not a verifier"), s)
  else if verifier = s.adminWallet then
    (.error (.authorization "BlockID: cannot remove admin as verifier"), s)
  else if verifier = s.contractOwner then
    (.error (.authorization "BlockID: cannot remove owner as verifier"), s)
  else
    (.ok (),
      { s with
        verifiers := upd s.verifiers verifier false
        events := s.events ++ [.VerifierRemoved verifier] })

/-- One invocation of a mutating registry operation, with its caller, clock
reading and arguments. -/
inductive Op where
  | changeAdmin (sender newAdmin : Nat)
  | requestIdentity (sender now : Nat) (ipfsHash idType : String) (uniqueHash : Nat)
  | approveIDRequest (sender now requestId expiryDuration : Nat)
  | rejectIDRequest (sender requestId : Nat) (reason : String)
  | createIdentity (sender now owner : Nat) (ipfsHash : String)
      (expiryDuration : Nat) (idType : String) (uniqueHash : Nat)
  | verifyIdentity (sender idNumber : Nat)
  | revokeIdentity (sender idNumber : Nat)
  | updateIdentityData (sender idNumber : Nat) (newIpfsHash : String)
  | addVerifier (sender verifier : Nat)
  | removeVerifier (sender verifier : Nat)

/-- Dispatch an operation; `Unit`-returning operations report `0`. -/
def applyOp : Op → State → Except Err Nat × State
  | .changeAdmin sender newAdmin, s =>
      let r := changeAdmin sender newAdmin s
      (r.1.map fun _ => 0, r.2)
  | .requestIdentity sender now ipfsHash idType uniqueHash, s =>
      requestIdentity sender now ipfsHash idType uniqueHash s
  | .approveIDRequest sender now requestId expiryDuration, s =>
      approveIDRequest sender now requestId expiryDuration s
  | .rejectIDRequest sender requestId reason, s =>
      let r := rejectIDRequest sender requestId reason s
      (r.1.map fun _ => 0, r.2)
  | .createIdentity sender now owner ipfsHash expiryDuration idType uniqueHash, s =>
      createIdentity sender now owner ipfsHash expiryDuration idType uniqueHash s
  | .verifyIdentity sender idNumber, s =>
      let r := verifyIdentity sender idNumber s
      (r.1.map fun _ => 0, r.2)
  | .revokeIdentity sender idNumber, s =>
      let r := revokeIdentity sender idNumber s
      (r.1.map fun _ => 0, r.2)
  | .updateIdentityData sender idNumber newIpfsHash, s =>
      let r := updateIdentityData sender idNumber newIpfsHash s
      (r.1.map fun _ => 0, r.2)
  | .addVerifier sender verifier, s =>
      let r := addVerifier sender verifier s
      (r.1.map fun _ => 0, r.2)
  | .removeVerifier sender verifier, s =>
      let r := removeVerifier sender verifier s
      (r.1.map fun _ => 0, r.2)

/-- States reachable from a fresh deployment by any sequence of registry
operations (successful or reverting). -/
inductive Reachable : State → Prop where
  | init (deployer adminW : Nat) : Reachable (initState deployer adminW)
  | step (s : State) (op : Op) : Reachable s → Reachable (applyOp op s).2

/-- `Op.ownerArgNonzero op`: `op` does not pass the zero address as the
future identity owner to the direct-creation path. -/
def Op.ownerArgNonzero : Op → Prop
  | .createIdentity _ _ owner _ _ _ _ => owner ≠ 0
  | _ => True

/-- Reachability restricted to operation sequences in which `createIdentity`
is never invoked with the zero address as `owner`. -/
inductive ReachableNZ : State → Prop where
  | init (deployer adminW : Nat) : ReachableNZ (initState deployer adminW)
  | step (s : State) (op : Op) : ReachableNZ s → op.ownerArgNonzero →
      ReachableNZ (applyOp op s).2

/-! ## Basic lemmas about storage updates -/

@[simp]
lemma upd_same {α : Type} (m : Nat → α) (k : Nat) (v : α) : upd m k v k = v := by
  simp [upd]

lemma upd_ne {α : Type} (m : Nat → α) (k : Nat) (v : α) {k' : Nat} (h : k' ≠ k) :
    upd m k v k' = m k' := by
  simp [upd, h]

lemma upd_apply {α : Type} (m : Nat → α) (k : Nat) (v : α) (k' : Nat) :
    upd m k v k' = if k' = k then v else m k' := rfl

lemma map_error_inv {α β : Type} {f : α → β} {x : Except Err α} {e : Err}
    (h : x.map f = .error e) : x = .error e := by
  cases x with
  | ok a => simp [Except.map] at h
  | error e2 => simpa [Except.map] using h

/-! ## C10: the `idType` argument of `requestIdentity` has no influence -/

/-- C10: two `requestIdentity` calls that differ only in their `idType`
argument produce the identical result and the identical resulting state —
the submitted `idType` is never persisted (the stored `IDRequest` has no
such field) and never affects any later operation or query. -/
theorem requestIdentity_ignores_idType (sender now : Nat) (ipfsHash t1 t2 : String)
    (uniqueHash : Nat) (s : State) :
    requestIdentity sender now ipfsHash t1 uniqueHash s =
      requestIdentity sender now ipfsHash t2 uniqueHash s := rfl

/-! ## C4: `isIdentityValid` is total and characterised exactly -/

/-- C4: `isIdentityValid` (a total `Bool` function — the source body contains
no `require`, so no call can revert) returns `true` iff an identity exists
under the id, is verified, and either has the zero no-expiry sentinel or the
current time is at most `expiresAt`; in every other case — non-existent id,
unverified id, expired id — it returns `false` rather than an error. -/
theorem isIdentityValid_spec (now idNumber : Nat) (s : State) :
    isIdentityValid now idNumber s = true ↔
      ((s.identities idNumber).owner ≠ 0 ∧
       (s.identities idNumber).isVerified = true ∧
       ((s.identities idNumber).expiresAt = 0 ∨
         now ≤ (s.identities idNumber).expiresAt)) := by
  unfold isIdentityValid
  split_ifs with h1 h2 h3 <;> simp_all <;> omega

/-- Witness for `isIdentityValid_spec`: a freshly minted, never-expiring
identity is valid. -/
theorem isIdentityValid_spec_witness :
    isIdentityValid 0 1 ((applyOp (.createIdentity 2 0 3 "m" 0 "t" 7) (initState 1 2)).2) =
      true :=
  (isIdentityValid_spec 0 1
      ((applyOp (.createIdentity 2 0 3 "m" 0 "t" 7) (initState 1 2)).2)).mpr
    ⟨by decide, rfl, Or.inl rfl⟩

/-! ## C7: every reverting operation leaves the state untouched -/

lemma changeAdmin_error_frozen {sender newAdmin : Nat} {s : State} {e : Err}
    (h : (changeAdmin sender newAdmin s).1 = .error e) :
    (changeAdmin sender newAdmin s).2 = s := by
  unfold changeAdmin at h ⊢
  split_ifs at h ⊢ <;> simp_all

lemma requestIdentity_error_frozen {sender now : Nat} {ipfsHash idType : String}
    {uniqueHash : Nat} {s : State} {e : Err}
    (h : (requestIdentity sender now ipfsHash idType uniqueHash s).1 = .error e) :
    (requestIdentity sender now ipfsHash idType uniqueHash s).2 = s := by
  unfold requestIdentity at h ⊢
  split_ifs at h ⊢ <;> simp_all

lemma approveIDRequest_error_frozen {sender now requestId expiryDuration : Nat}
    {s : State} {e : Err}
    (h : (approveIDRequest sender now requestId expiryDuration s).1 = .error e) :
    (approveIDRequest sender now requestId expiryDuration s).2 = s := by
  unfold approveIDRequest at h ⊢
  split_ifs at h ⊢ <;> simp_all

lemma rejectIDRequest_error_frozen {sender requestId : Nat} {reason : String}
    {s : State} {e : Err}
    (h : (rejectIDRequest sender requestId reason s).1 = .error e) :
    (rejectIDRequest sender requestId reason s).2 = s := by
  unfold rejectIDRequest at h ⊢
  split_ifs at h ⊢ <;> simp_all

lemma createIdentity_error_frozen {sender now owner : Nat} {ipfsHash : String}
    {expiryDuration : Nat} {idType : String} {uniqueHash : Nat} {s : State} {e : Err}
    (h : (createIdentity sender now owner ipfsHash expiryDuration idType uniqueHash s).1 =
          .error e) :
    (createIdentity sender now owner ipfsHash expiryDuration idType uniqueHash s).2 = s := by
  unfold createIdentity at h ⊢
  split_ifs at h ⊢ <;> simp_all

lemma verifyIdentity_error_frozen {sender idNumber : Nat} {s : State} {e : Err}
    (h : (verifyIdentity sender idNumber s).1 = .error e) :
    (verifyIdentity sender idNumber s).2 = s := by
  unfold verifyIdentity at h ⊢
  split_ifs at h ⊢ <;> simp_all

lemma revokeIdentity_error_frozen {sender idNumber : Nat} {s : State} {e : Err}
    (h : (revokeIdentity sender idNumber s).1 = .error e) :
    (revokeIdentity sender idNumber s).2 = s := by
  unfold revokeIdentity at h ⊢
  split_ifs at h ⊢ <;> simp_all

lemma updateIdentityData_error_frozen {sender idNumber : Nat} {newIpfsHash : String}
    {s : State} {e : Err}
    (h : (updateIdentityData sender idNumber newIpfsHash s).1 = .error e) :
    (updateIdentityData sender idNumber newIpfsHash s).2 = s := by
  unfold updateIdentityData at h ⊢
  split_ifs at h ⊢ <;> simp_all

lemma addVerifier_error_frozen {sender verifier : Nat} {s : State} {e : Err}
    (h : (addVerifier sender verifier s).1 = .error e) :
    (addVerifier sender verifier s).2 = s := by
  unfold addVerifier at h ⊢
  split_ifs at h ⊢ <;> simp_all

lemma removeVerifier_error_frozen {sender verifier : Nat} {s : State} {e : Err}
    (h : (removeVerifier sender verifier s).1 = .error e) :
    (removeVerifier sender verifier s).2 = s := by
  unfold removeVerifier at h ⊢
  split_ifs at h ⊢ <;> simp_all

/-- C7: every mutating registry operation is atomic — whenever it raises any
error, the resulting state (all five tables, the role store, the counters and
the event log) is exactly the state before the call; no partial change
persists.  This is a theorem about the translation (every `require` precedes
every write), not an artefact of it: a failed check returns the state as it
stands at that program point. -/
theorem registry_ops_atomic (op : Op) (s : State) (e : Err)
    (h : (applyOp op s).1 = .error e) : (applyOp op s).2 = s := by
  cases op with
  | changeAdmin sender newAdmin =>
      simp only [applyOp] at h ⊢
      exact changeAdmin_error_frozen (map_error_inv h)
  | requestIdentity sender now ipfsHash idType uniqueHash =>
      simp only [applyOp] at h ⊢
      exact requestIdentity_error_frozen h
  | approveIDRequest sender now requestId expiryDuration =>
      simp only [applyOp] at h ⊢
      exact approveIDRequest_error_frozen h
  | rejectIDRequest sender requestId reason =>
      simp only [applyOp] at h ⊢
      exact rejectIDRequest_error_frozen (map_error_inv h)
  | createIdentity sender now owner ipfsHash expiryDuration idType uniqueHash =>
      simp only [applyOp] at h ⊢
      exact createIdentity_error_frozen h
  | verifyIdentity sender idNumber =>
      simp only [applyOp] at h ⊢
      exact verifyIdentity_error_frozen (map_error_inv h)
  | revokeIdentity sender idNumber =>
      simp only [applyOp] at h ⊢
      exact revokeIdentity_error_frozen (map_error_inv h)
  | updateIdentityData sender idNumber newIpfsHash =>
      simp only [applyOp] at h ⊢
      exact updateIdentityData_error_frozen (map_error_inv h)
  | addVerifier sender verifier =>
      simp only [applyOp] at h ⊢
      exact addVerifier_error_frozen (map_error_inv h)
  | removeVerifier sender verifier =>
      simp only [applyOp] at h ⊢
      exact removeVerifier_error_frozen (map_error_inv h)

/-- Witness for `registry_ops_atomic`: a non-admin call to `addVerifier`
reverts with an authorization error and leaves a freshly deployed registry
exactly as it was. -/
theorem registry_ops_atomic_witness :
    (applyOp (.addVerifier 3 4) (initState 1 2)).1 =
      .error (.authorization "BlockID: caller is not the admin") ∧
    (applyOp (.addVerifier 3 4) (initState 1 2)).2 = initState 1 2 :=
  ⟨rfl, registry_ops_atomic _ _ _ rfl⟩

/-! ## Success equations for the mutating operations -/

lemma requestIdentity_ok {sender now : Nat} {ipfsHash idType : String} {uniqueHash : Nat}
    {s : State}
    (h1 : hasIdentity s sender = false)
    (h2 : isHashRegistered s uniqueHash = false)
    (h3 : hasPendingDup s sender uniqueHash = false) :
    requestIdentity sender now ipfsHash idType uniqueHash s =
      (.ok (s.requestCounter + 1),
       { s with
         requestCounter := s.requestCounter + 1
         idRequests := upd s.idRequests (s.requestCounter + 1)
           { requester := sender, ipfsHash := ipfsHash, requestedAt := now,
             uniqueIdentityHash := uniqueHash, isPending := true,
             isApproved := false, isRejected := false }
         userRequests := upd s.userRequests sender
           (s.userRequests sender ++ [s.requestCounter + 1])
         events := s.events ++ [.IDRequested (s.requestCounter + 1) sender uniqueHash] }) := by
  simp [requestIdentity, h1, h2, h3]

lemma approveIDRequest_ok {sender now requestId expiryDuration : Nat} {s : State}
    (h1 : sender = s.adminWallet)
    (h2 : (s.idRequests requestId).requester ≠ 0)
    (h3 : (s.idRequests requestId).isPending = true)
    (h4 : hasIdentity s ((s.idRequests requestId).requester) = false)
    (h5 : isHashRegistered s ((s.idRequests requestId).uniqueIdentityHash) = false) :
    approveIDRequest sender now requestId expiryDuration s =
      (.ok (s.idCounter + 1),
       { s with
         idCounter := s.idCounter + 1
         identities := upd s.identities (s.idCounter + 1)
           { owner := (s.idRequests requestId).requester
             ipfsHash := (s.idRequests requestId).ipfsHash
             createdAt := now
             expiresAt := if expiryDuration > 0 then now + expiryDuration else 0
             isVerified := true
             idType := "personal_id"
             uniqueIdentityHash := (s.idRequests requestId).uniqueIdentityHash }
         walletToId := upd s.walletToId ((s.idRequests requestId).requester) (s.idCounter + 1)
         hashToId := upd s.hashToId ((s.idRequests requestId).uniqueIdentityHash) (s.idCounter + 1)
         idRequests := upd s.idRequests requestId
           { s.idRequests requestId with isPending := false, isApproved := true }
         events := s.events ++
           [.IDRequestApproved requestId (s.idCounter + 1) sender,
            .IdentityCreated (s.idCounter + 1) ((s.idRequests requestId).requester)
              "personal_id" ((s.idRequests requestId).uniqueIdentityHash)] }) := by
  subst h1
  simp [approveIDRequest, h2, h3, h4, h5]

lemma createIdentity_ok {sender now owner : Nat} {ipfsHash : String}
    {expiryDuration : Nat} {idType : String} {uniqueHash : Nat} {s : State}
    (h1 : sender = s.adminWallet)
    (h2 : hasIdentity s owner = false)
    (h3 : isHashRegistered s uniqueHash = false) :
    createIdentity sender now owner ipfsHash expiryDuration idType uniqueHash s =
      (.ok (s.idCounter + 1),
       { s with
         idCounter := s.idCounter + 1
         identities := upd s.identities (s.idCounter + 1)
           { owner := owner, ipfsHash := ipfsHash, createdAt := now,
             expiresAt := if expiryDuration > 0 then now + expiryDuration else 0,
             isVerified := true, idType := idType, uniqueIdentityHash := uniqueHash }
         walletToId := upd s.walletToId owner (s.idCounter + 1)
         hashToId := upd s.hashToId uniqueHash (s.idCounter + 1)
         events := s.events ++ [.IdentityCreated (s.idCounter + 1) owner idType uniqueHash] }) := by
  subst h1
  simp [createIdentity, h2, h3]

lemma revokeIdentity_ok {sender idNumber : Nat} {s : State}
    (h1 : (s.identities idNumber).owner ≠ 0)
    (h2 : (s.identities idNumber).owner = sender ∨ s.verifiers sender = true ∨
          s.contractOwner = sender ∨ sender = s.adminWallet) :
    revokeIdentity sender idNumber s =
      (.ok (),
       { s with
         walletToId := upd s.walletToId ((s.identities idNumber).owner) 0
         hashToId := upd s.hashToId ((s.identities idNumber).uniqueIdentityHash) 0
         identities := upd s.identities idNumber Identity.empty
         events := s.events ++ [.IdentityRevoked idNumber sender] }) := by
  simp [revokeIdentity, h1, h2]

/-! ## C3: `requestIdentity` error cases and success behaviour -/

/-- C3: `requestIdentity` fails with the duplicate-identity error when the
caller already owns an Identity, with the duplicate-fingerprint error when
the hash is already bound to a minted Identity, and with the
duplicate-pending-request error when the caller has a pending request with
the same hash (`hasPendingDup` scans only the caller's own request list);
otherwise it succeeds, stores a new pending request under the next
sequential request id (never the reserved sentinel `0`; the counter starts
at `0` at deployment, so the first request gets id `1`) and appends that id
to the caller's request list. -/
theorem requestIdentity_spec (sender now : Nat) (ipfsHash idType : String)
    (uniqueHash : Nat) (s : State) :
    (hasIdentity s sender = true →
      requestIdentity sender now ipfsHash idType uniqueHash s =
        (.error (.duplicateIdentity "BlockID: wallet already has an ID"), s)) ∧
    (hasIdentity s sender = false → isHashRegistered s uniqueHash = true →
      requestIdentity sender now ipfsHash idType uniqueHash s =
        (.error (.duplicateFingerprint "BlockID: identity with this hash already exists"), s)) ∧
    (hasIdentity s sender = false → isHashRegistered s uniqueHash = false →
      hasPendingDup s sender uniqueHash = true →
      requestIdentity sender now ipfsHash idType uniqueHash s =
        (.error (.duplicatePendingRequest "BlockID: a request with this hash is already pending"),
         s)) ∧
    (hasIdentity s sender = false → isHashRegistered s uniqueHash = false →
      hasPendingDup s sender uniqueHash = false →
      ∃ s2,
        requestIdentity sender now ipfsHash idType uniqueHash s =
          (.ok (s.requestCounter + 1), s2) ∧
        0 < s.requestCounter + 1 ∧
        s2.requestCounter = s.requestCounter + 1 ∧
        s2.idRequests (s.requestCounter + 1) =
          { requester := sender, ipfsHash := ipfsHash, requestedAt := now,
            uniqueIdentityHash := uniqueHash, isPending := true,
            isApproved := false, isRejected := false } ∧
        s2.userRequests sender = s.userRequests sender ++ [s.requestCounter + 1]) ∧
    (∀ deployer adminW, (initState deployer adminW).requestCounter = 0) := by
  refine ⟨?_, ?_, ?_, ?_, fun _ _ => rfl⟩
  · intro h1
    simp [requestIdentity, h1]
  · intro h1 h2
    simp [requestIdentity, h1, h2]
  · intro h1 h2 h3
    simp [requestIdentity, h1, h2, h3]
  · intro h1 h2 h3
    refine ⟨_, requestIdentity_ok h1 h2 h3, Nat.succ_pos _, rfl, ?_, ?_⟩
    · exact upd_same _ _ _
    · exact upd_same _ _ _

/-- Witness for `requestIdentity_spec`: on a fresh registry, the first
request from address `3` succeeds with request id `1`, is pending, and is
recorded in the caller's request list. -/
theorem requestIdentity_spec_witness :
    ∃ s2,
      requestIdentity 3 0 "m" "t" 7 (initState 1 2) = (.ok 1, s2) ∧
      (s2.idRequests 1).isPending = true ∧
      s2.userRequests 3 = [1] := by
  obtain ⟨s2, heq, _, _, hreq, husr⟩ :=
    (requestIdentity_spec 3 0 "m" "t" 7 (initState 1 2)).2.2.2.1 rfl rfl rfl
  refine ⟨s2, heq, ?_, husr⟩
  have h5 : s2.idRequests 1 =
      { requester := 3, ipfsHash := "m", requestedAt := 0, uniqueIdentityHash := 7,
        isPending := true, isApproved := false, isRejected := false } := hreq
  rw [h5]

/-! ## C2: successful approval mints a verified identity with the fixed
default `idType` and emits the two events in order -/

/-- C2: a successful `approveIDRequest` call is made by the admin on a
pending request, and mints identity number `idCounter + 1` owned by the
request's requester, with `isVerified = true` and the fixed default
`idType = "personal_id"` (the stored request carries no declared type at
all); it points both uniqueness indexes at the new id, marks the request
approved and not pending, and appends exactly the request-approved event
followed by the identity-created event to the log, in that order. -/
theorem approveIDRequest_success_spec (sender now requestId expiryDuration : Nat)
    (s s2 : State) (n : Nat)
    (h : approveIDRequest sender now requestId expiryDuration s = (.ok n, s2)) :
    sender = s.adminWallet ∧
    (s.idRequests requestId).isPending = true ∧
    n = s.idCounter + 1 ∧
    (s2.identities n).owner = (s.idRequests requestId).requester ∧
    (s2.identities n).isVerified = true ∧
    (s2.identities n).idType = "personal_id" ∧
    s2.walletToId ((s.idRequests requestId).requester) = n ∧
    s2.hashToId ((s.idRequests requestId).uniqueIdentityHash) = n ∧
    (s2.idRequests requestId).isPending = false ∧
    (s2.idRequests requestId).isApproved = true ∧
    s2.events = s.events ++
      [.IDRequestApproved requestId n sender,
       .IdentityCreated n ((s.idRequests requestId).requester) "personal_id"
         ((s.idRequests requestId).uniqueIdentityHash)] := by
  unfold approveIDRequest at h
  split_ifs at h with h1 h2 h3 h4 h5 h6
  · simp at h
  · simp at h
  · simp at h
  · simp at h
  · simp at h
  · simp only [Prod.mk.injEq, Except.ok.injEq] at h
    obtain ⟨hn, hs2⟩ := h
    subst hn
    subst hs2
    simp only [not_not] at h1
    simp only [Bool.not_eq_false] at h3
    refine ⟨h1, h3, rfl, ?_, ?_, ?_, ?_, ?_, ?_, ?_, rfl⟩ <;> simp
  · simp only [Prod.mk.injEq, Except.ok.injEq] at h
    obtain ⟨hn, hs2⟩ := h
    subst hn
    subst hs2
    simp only [not_not] at h1
    simp only [Bool.not_eq_false] at h3
    refine ⟨h1, h3, rfl, ?_, ?_, ?_, ?_, ?_, ?_, ?_, rfl⟩ <;> simp

/-- Witness for `approveIDRequest_success_spec`: request id `1` submitted by
address `3` with hash `7` on a fresh registry, then approved by the admin,
yields identity `1` owned by `3`, verified, with the fixed default type. -/
theorem approveIDRequest_success_spec_witness :
    ((approveIDRequest 2 5 1 0 (requestIdentity 3 0 "m" "t" 7 (initState 1 2)).2).2.identities
        1).owner = 3 ∧
    ((approveIDRequest 2 5 1 0 (requestIdentity 3 0 "m" "t" 7 (initState 1 2)).2).2.identities
        1).isVerified = true ∧
    ((approveIDRequest 2 5 1 0 (requestIdentity 3 0 "m" "t" 7 (initState 1 2)).2).2.identities
        1).idType = "personal_id" := by
  have h := approveIDRequest_success_spec 2 5 1 0
    (requestIdentity 3 0 "m" "t" 7 (initState 1 2)).2
    (approveIDRequest 2 5 1 0 (requestIdentity 3 0 "m" "t" 7 (initState 1 2)).2).2 1 rfl
  exact ⟨h.2.2.2.1, h.2.2.2.2.1, h.2.2.2.2.2.1⟩

/-! ## Role invariants along reachable states -/

/-- The current admin address is a member of the verifier set. -/
def AdminIsVerifier (s : State) : Prop := s.verifiers s.adminWallet = true

/-- The contract owner address is a member of the verifier set. -/
def OwnerIsVerifier (s : State) : Prop := s.verifiers s.contractOwner = true

/-- Every existing identity (owner field non-zero) is verified. -/
def AllExistingVerified (s : State) : Prop :=
  ∀ i, (s.identities i).owner ≠ 0 → (s.identities i).isVerified = true

lemma adminIsVerifier_step (op : Op) (s : State) (h : AdminIsVerifier s) :
    AdminIsVerifier (applyOp op s).2 := by
  unfold AdminIsVerifier at h ⊢
  cases op <;>
    simp only [applyOp, changeAdmin, requestIdentity, approveIDRequest, rejectIDRequest,
      createIdentity, verifyIdentity, revokeIdentity, updateIdentityData, addVerifier,
      removeVerifier] <;>
    split_ifs <;>
    simp_all [upd] <;>
    omega

lemma ownerIsVerifier_step (op : Op) (s : State) (h : OwnerIsVerifier s) :
    OwnerIsVerifier (applyOp op s).2 := by
  unfold OwnerIsVerifier at h ⊢
  cases op <;>
    simp only [applyOp, changeAdmin, requestIdentity, approveIDRequest, rejectIDRequest,
      createIdentity, verifyIdentity, revokeIdentity, updateIdentityData, addVerifier,
      removeVerifier] <;>
    split_ifs <;>
    simp_all [upd] <;>
    omega

lemma allExistingVerified_step (op : Op) (s : State) (h : AllExistingVerified s) :
    AllExistingVerified (applyOp op s).2 := by
  unfold AllExistingVerified at h ⊢
  cases op with
  | changeAdmin sender newAdmin =>
      simp only [applyOp, changeAdmin]
      split_ifs <;> exact h
  | requestIdentity sender now ipfsHash idType uniqueHash =>
      simp only [applyOp, requestIdentity]
      split_ifs <;> exact h
  | approveIDRequest sender now requestId expiryDuration =>
      simp only [applyOp, approveIDRequest]
      split_ifs <;> try exact h
      all_goals
        intro i hi
      all_goals
        rcases eq_or_ne i (s.idCounter + 1) with rfl | hne
      · simp [upd]
      · simp only [upd_ne _ _ _ hne] at hi ⊢
        exact h i hi
      · simp [upd]
      · simp only [upd_ne _ _ _ hne] at hi ⊢
        exact h i hi
  | rejectIDRequest sender requestId reason =>
      simp only [applyOp, rejectIDRequest]
      split_ifs <;> exact h
  | createIdentity sender now owner ipfsHash expiryDuration idType uniqueHash =>
      simp only [applyOp, createIdentity]
      split_ifs <;> try exact h
      all_goals
        intro i hi
      all_goals
        rcases eq_or_ne i (s.idCounter + 1) with rfl | hne
      · simp [upd]
      · simp only [upd_ne _ _ _ hne] at hi ⊢
        exact h i hi
      · simp [upd]
      · simp only [upd_ne _ _ _ hne] at hi ⊢
        exact h i hi
  | verifyIdentity sender idNumber =>
      simp only [applyOp, verifyIdentity]
      split_ifs <;> try exact h
      intro i hi
      rcases eq_or_ne i idNumber with rfl | hne
      · simp [upd]
      · simp only [upd_ne _ _ _ hne] at hi ⊢
        exact h i hi
  | revokeIdentity sender idNumber =>
      simp only [applyOp, revokeIdentity]
      split_ifs <;> try exact h
      intro i hi
      rcases eq_or_ne i idNumber with rfl | hne
      · simp [upd, Identity.empty] at hi
      · simp only [upd_ne _ _ _ hne] at hi ⊢
        exact h i hi
  | updateIdentityData sender idNumber newIpfsHash =>
      simp only [applyOp, updateIdentityData]
      split_ifs <;> try exact h
      intro i hi
      rcases eq_or_ne i idNumber with rfl | hne
      · simp only [upd_same] at hi ⊢
        exact h _ (by simpa using hi)
      · simp only [upd_ne _ _ _ hne] at hi ⊢
        exact h i hi
  | addVerifier sender verifier =>
      simp only [applyOp, addVerifier]
      split_ifs <;> exact h
  | removeVerifier sender verifier =>
      simp only [applyOp, removeVerifier]
      split_ifs <;> exact h

lemma adminIsVerifier_invariant (s : State) (hs : Reachable s) : AdminIsVerifier s := by
  induction hs with
  | init deployer adminW => simp [AdminIsVerifier, initState]
  | step s' op hs ih => exact adminIsVerifier_step op s' ih

lemma ownerIsVerifier_invariant (s : State) (hs : Reachable s) : OwnerIsVerifier s := by
  induction hs with
  | init deployer adminW =>
      unfold OwnerIsVerifier initState
      simp only
      rcases eq_or_ne deployer adminW with rfl | hne
      · simp [upd]
      · rw [upd_ne _ _ _ hne, upd_same]
  | step s' op hs ih => exact ownerIsVerifier_step op s' ih

lemma allExistingVerified_invariant (s : State) (hs : Reachable s) :
    AllExistingVerified s := by
  induction hs with
  | init deployer adminW =>
      intro i hi
      simp [initState, Identity.empty] at hi
  | step s' op hs ih => exact allExistingVerified_step op s' ih

/-! ## C9: the admin is always a verifier -/

/-- C9: in every reachable state the current admin address is a member of
the verifier set: the constructor grants it, `changeAdmin` grants it to the
new admin if absent, `removeVerifier` refuses to strip the current admin,
and no other operation touches the pair. -/
theorem admin_always_verifier (s : State) (hs : Reachable s) :
    s.verifiers s.adminWallet = true :=
  adminIsVerifier_invariant s hs

/-- Witness for `admin_always_verifier`: a freshly deployed registry. -/
theorem admin_always_verifier_witness :
    (initState 1 2).verifiers (initState 1 2).adminWallet = true :=
  admin_always_verifier (initState 1 2) (Reachable.init 1 2)

/-! ## C6: `removeVerifier` can strip neither the admin nor the owner -/

/-- C6: in every reachable state, for every caller, `removeVerifier` applied
to the current admin address or to the contract owner address fails with an
`authorization` error and leaves the whole state (in particular the verifier
set) unchanged. -/
theorem removeVerifier_protects_admin_and_owner (s : State) (hs : Reachable s)
    (sender addr : Nat) (h : addr = s.adminWallet ∨ addr = s.contractOwner) :
    (∃ m, (removeVerifier sender addr s).1 = .error (.authorization m)) ∧
    (removeVerifier sender addr s).2 = s := by
  have hadm := adminIsVerifier_invariant s hs
  have hown := ownerIsVerifier_invariant s hs
  unfold AdminIsVerifier at hadm
  unfold OwnerIsVerifier at hown
  unfold removeVerifier
  split_ifs with h1 h2 h3 h4
  · exact ⟨⟨_, rfl⟩, rfl⟩
  · rcases h with h | h <;> subst h <;> simp_all
  · exact ⟨⟨_, rfl⟩, rfl⟩
  · exact ⟨⟨_, rfl⟩, rfl⟩
  · rcases h with h | h <;> simp_all

/-- Witness for `removeVerifier_protects_admin_and_owner`: on a fresh
registry the admin itself cannot strip the admin's verifier status. -/
theorem removeVerifier_protects_admin_and_owner_witness :
    (∃ m, (removeVerifier 2 2 (initState 1 2)).1 = .error (.authorization m)) ∧
    (removeVerifier 2 2 (initState 1 2)).2 = initState 1 2 :=
  removeVerifier_protects_admin_and_owner (initState 1 2) (Reachable.init 1 2) 2 2
    (Or.inl rfl)

/-! ## C8: `verifyIdentity` can never succeed -/

/-- C8: in every reachable state every identity that exists is already
verified (both creation paths set `isVerified := true` and nothing resets
it), so every `verifyIdentity` call fails: with an `authorization` error for
a non-verifier caller, a `notFound` error for a missing identity, and an
`invalidState` (already verified) error otherwise. -/
theorem verifyIdentity_never_succeeds (s : State) (hs : Reachable s)
    (sender idNumber : Nat) :
    (∃ e, (verifyIdentity sender idNumber s).1 = .error e) ∧
    (s.verifiers sender = false →
      (verifyIdentity sender idNumber s).1 =
        .error (.authorization "BlockID: caller is not a verifier")) ∧
    (s.verifiers sender = true → (s.identities idNumber).owner = 0 →
      (verifyIdentity sender idNumber s).1 =
        .error (.notFound "BlockID: identity does not exist")) ∧
    (s.verifiers sender = true → (s.identities idNumber).owner ≠ 0 →
      (verifyIdentity sender idNumber s).1 =
        .error (.invalidState "BlockID: identity already verified")) := by
  have hv := allExistingVerified_invariant s hs
  have auth : s.verifiers sender = false →
      (verifyIdentity sender idNumber s).1 =
        .error (.authorization "BlockID: caller is not a verifier") := by
    intro h1
    simp [verifyIdentity, h1]
  have notfound : s.verifiers sender = true → (s.identities idNumber).owner = 0 →
      (verifyIdentity sender idNumber s).1 =
        .error (.notFound "BlockID: identity does not exist") := by
    intro h1 h2
    simp [verifyIdentity, h1, h2]
  have already : s.verifiers sender = true → (s.identities idNumber).owner ≠ 0 →
      (verifyIdentity sender idNumber s).1 =
        .error (.invalidState "BlockID: identity already verified") := by
    intro h1 h2
    simp [verifyIdentity, h1, h2, hv idNumber h2]
  refine ⟨?_, auth, notfound, already⟩
  rcases Bool.eq_false_or_eq_true (s.verifiers sender) with h1 | h1
  · rcases eq_or_ne (s.identities idNumber).owner 0 with h2 | h2
    · exact ⟨_, notfound h1 h2⟩
    · exact ⟨_, already h1 h2⟩
  · exact ⟨_, auth h1⟩

/-- Witness for `verifyIdentity_never_succeeds`: on a fresh registry a
verifier calling `verifyIdentity` on a non-existent id gets the not-found
error. -/
theorem verifyIdentity_never_succeeds_witness :
    (verifyIdentity 1 5 (initState 1 2)).1 =
      .error (.notFound "BlockID: identity does not exist") :=
  (verifyIdentity_never_succeeds (initState 1 2) (Reachable.init 1 2) 1 5).2.2.1 rfl rfl

/-! ## C1: uniqueness invariants and ledger/index agreement -/

/-- An identity exists under id `i`: the contract's own existence test,
`identities[i].owner != address(0)`. -/
def identityExists (s : State) (i : Nat) : Prop :=
  (s.identities i).owner ≠ 0

/-- Each address owns at most one existing Identity. -/
def UniqueOwners (s : State) : Prop :=
  ∀ i j, identityExists s i → identityExists s j →
    (s.identities i).owner = (s.identities j).owner → i = j

/-- Each fingerprint is bound to at most one existing Identity. -/
def UniqueFingerprints (s : State) : Prop :=
  ∀ i j, identityExists s i → identityExists s j →
    (s.identities i).uniqueIdentityHash = (s.identities j).uniqueIdentityHash → i = j

/-- Every non-zero wallet-index entry points to an existing Identity with
that owner. -/
def WalletIndexSound (s : State) : Prop :=
  ∀ a, s.walletToId a ≠ 0 →
    identityExists s (s.walletToId a) ∧ (s.identities (s.walletToId a)).owner = a

/-- Every non-zero fingerprint-index entry points to an existing Identity
with that fingerprint. -/
def HashIndexSound (s : State) : Prop :=
  ∀ f, s.hashToId f ≠ 0 →
    identityExists s (s.hashToId f) ∧
      (s.identities (s.hashToId f)).uniqueIdentityHash = f

/-- Every existing Identity is indexed under its owner and its fingerprint. -/
def IndexComplete (s : State) : Prop :=
  ∀ i, identityExists s i →
    s.walletToId ((s.identities i).owner) = i ∧
      s.hashToId ((s.identities i).uniqueIdentityHash) = i

/-- The full C1 property: both at-most-one invariants plus agreement of both
uniqueness indexes with the Identity ledger. -/
def UniqueAndIndexed (s : State) : Prop :=
  UniqueOwners s ∧ UniqueFingerprints s ∧ WalletIndexSound s ∧ HashIndexSound s ∧
    IndexComplete s

/-- The strengthened inductive invariant from which `UniqueAndIndexed`
follows: slot `0` is empty, slots beyond the id counter are empty, both
indexes are sound (with non-zero keys), and every existing identity is
indexed under both of its keys. -/
def IndexInv (s : State) : Prop :=
  (s.identities 0).owner = 0 ∧
  (∀ i, s.idCounter < i → s.identities i = Identity.empty) ∧
  (∀ a, s.walletToId a ≠ 0 → (s.identities (s.walletToId a)).owner = a ∧ a ≠ 0) ∧
  (∀ f, s.hashToId f ≠ 0 →
      (s.identities (s.hashToId f)).uniqueIdentityHash = f ∧
      (s.identities (s.hashToId f)).owner ≠ 0) ∧
  (∀ i, (s.identities i).owner ≠ 0 →
      s.walletToId ((s.identities i).owner) = i ∧
      s.hashToId ((s.identities i).uniqueIdentityHash) = i)

lemma hasIdentity_false {s : State} {x : Nat} (h : ¬ hasIdentity s x = true) :
    s.walletToId x = 0 := by
  simpa [hasIdentity] using h

lemma isHashRegistered_false {s : State} {x : Nat} (h : ¬ isHashRegistered s x = true) :
    s.hashToId x = 0 := by
  simpa [isHashRegistered] using h

/-- `IndexInv` only looks at four fields; transport it across any operation
that leaves those fields untouched. -/
lemma indexInv_of_fields (s s2 : State)
    (hic : s2.idCounter = s.idCounter) (hid : s2.identities = s.identities)
    (hw : s2.walletToId = s.walletToId) (hh : s2.hashToId = s.hashToId)
    (h : IndexInv s) : IndexInv s2 := by
  obtain ⟨h0, h1, h2, h3, h4⟩ := h
  rw [IndexInv, hic, hid, hw, hh]
  exact ⟨h0, h1, h2, h3, h4⟩

/-- `IndexInv` is preserved by minting a fresh identity under a free wallet
slot and a free fingerprint slot (the common core of `approveIDRequest` and
`createIdentity`). -/
lemma indexInv_create (s s2 : State) (r uh : Nat) (ident : Identity) (hr0 : r ≠ 0)
    (hio : ident.owner = r) (hih : ident.uniqueIdentityHash = uh)
    (hwr : s.walletToId r = 0) (hhr : s.hashToId uh = 0)
    (hic : s2.idCounter = s.idCounter + 1)
    (hid : s2.identities = upd s.identities (s.idCounter + 1) ident)
    (hw : s2.walletToId = upd s.walletToId r (s.idCounter + 1))
    (hh : s2.hashToId = upd s.hashToId uh (s.idCounter + 1))
    (h : IndexInv s) : IndexInv s2 := by
  obtain ⟨h0, h1, h2, h3, h4⟩ := h
  refine ⟨?_, ?_, ?_, ?_, ?_⟩
  · rw [hid, upd_ne _ _ _ (by omega : (0 : Nat) ≠ s.idCounter + 1)]
    exact h0
  · intro i hi
    rw [hic] at hi
    rw [hid, upd_ne _ _ _ (by omega : i ≠ s.idCounter + 1)]
    exact h1 i (by omega)
  · intro a ha
    rw [hw] at ha ⊢
    rw [hid]
    rcases eq_or_ne a r with rfl | har
    · rw [upd_same] at ha ⊢
      rw [upd_same]
      exact ⟨hio, hr0⟩
    · rw [upd_ne _ _ _ har] at ha ⊢
      obtain ⟨hoa, ha0⟩ := h2 a ha
      have hbound : ¬ s.idCounter < s.walletToId a := by
        intro hgt
        rw [h1 _ hgt] at hoa
        exact ha0 (by simpa [Identity.empty] using hoa.symm)
      rw [upd_ne _ _ _ (by omega : s.walletToId a ≠ s.idCounter + 1)]
      exact ⟨hoa, ha0⟩
  · intro f hf
    rw [hh] at hf ⊢
    rw [hid]
    rcases eq_or_ne f uh with rfl | hfu
    · rw [upd_same] at hf ⊢
      rw [upd_same]
      refine ⟨hih, ?_⟩
      rw [hio]
      exact hr0
    · rw [upd_ne _ _ _ hfu] at hf ⊢
      obtain ⟨hhf, hof⟩ := h3 f hf
      have hbound : ¬ s.idCounter < s.hashToId f := by
        intro hgt
        rw [h1 _ hgt] at hof
        exact hof rfl
      rw [upd_ne _ _ _ (by omega : s.hashToId f ≠ s.idCounter + 1)]
      exact ⟨hhf, hof⟩
  · intro i hi
    rw [hid] at hi ⊢
    rw [hw, hh]
    rcases eq_or_ne i (s.idCounter + 1) with rfl | hne
    · rw [upd_same] at hi ⊢
      constructor
      · rw [hio, upd_same]
      · rw [hih, upd_same]
    · rw [upd_ne _ _ _ hne] at hi ⊢
      obtain ⟨hwi, hhi⟩ := h4 i hi
      have hi0 : i ≠ 0 := by
        intro h'
        rw [h'] at hi
        exact hi h0
      constructor
      · have hor : (s.identities i).owner ≠ r := by
          intro he
          rw [he, hwr] at hwi
          exact hi0 hwi.symm
        rw [upd_ne _ _ _ hor]
        exact hwi
      · have hhu : (s.identities i).uniqueIdentityHash ≠ uh := by
          intro he
          rw [he, hhr] at hhi
          exact hi0 hhi.symm
        rw [upd_ne _ _ _ hhu]
        exact hhi

/-- `IndexInv` is preserved by `revokeIdentity`'s deletion: both index
entries of the revoked identity are cleared and its record is emptied. -/
lemma indexInv_revoke (s s2 : State) (idNumber : Nat)
    (hex : (s.identities idNumber).owner ≠ 0)
    (hic : s2.idCounter = s.idCounter)
    (hid : s2.identities = upd s.identities idNumber Identity.empty)
    (hw : s2.walletToId = upd s.walletToId ((s.identities idNumber).owner) 0)
    (hh : s2.hashToId = upd s.hashToId ((s.identities idNumber).uniqueIdentityHash) 0)
    (h : IndexInv s) : IndexInv s2 := by
  obtain ⟨h0, h1, h2, h3, h4⟩ := h
  obtain ⟨hwo, hhu⟩ := h4 idNumber hex
  refine ⟨?_, ?_, ?_, ?_, ?_⟩
  · rw [hid]
    rcases eq_or_ne (0 : Nat) idNumber with h' | h'
    · subst h'
      rw [upd_same]
      rfl
    · rw [upd_ne _ _ _ h']
      exact h0
  · intro i hi
    rw [hic] at hi
    rw [hid]
    rcases eq_or_ne i idNumber with rfl | hne
    · rw [upd_same]
    · rw [upd_ne _ _ _ hne]
      exact h1 i hi
  · intro a ha
    rw [hw] at ha ⊢
    rcases eq_or_ne a ((s.identities idNumber).owner) with rfl | hao
    · rw [upd_same] at ha
      exact absurd rfl ha
    · rw [upd_ne _ _ _ hao] at ha ⊢
      obtain ⟨hoa, ha0⟩ := h2 a ha
      rw [hid]
      have hne : s.walletToId a ≠ idNumber := by
        intro he
        rw [he] at hoa
        exact hao hoa.symm
      rw [upd_ne _ _ _ hne]
      exact ⟨hoa, ha0⟩
  · intro f hf
    rw [hh] at hf ⊢
    rcases eq_or_ne f ((s.identities idNumber).uniqueIdentityHash) with rfl | hfu
    · rw [upd_same] at hf
      exact absurd rfl hf
    · rw [upd_ne _ _ _ hfu] at hf ⊢
      obtain ⟨hhf, hof⟩ := h3 f hf
      rw [hid]
      have hne : s.hashToId f ≠ idNumber := by
        intro he
        rw [he] at hhf
        exact hfu hhf.symm
      rw [upd_ne _ _ _ hne]
      exact ⟨hhf, hof⟩
  · intro i hi
    rw [hid] at hi ⊢
    rw [hw, hh]
    rcases eq_or_ne i idNumber with rfl | hne
    · rw [upd_same] at hi
      exact absurd rfl hi
    · rw [upd_ne _ _ _ hne] at hi ⊢
      obtain ⟨hwi, hhi⟩ := h4 i hi
      constructor
      · have hor : (s.identities i).owner ≠ (s.identities idNumber).owner := by
          intro he
          rw [he, hwo] at hwi
          exact hne hwi.symm
        rw [upd_ne _ _ _ hor]
        exact hwi
      · have hhn : (s.identities i).uniqueIdentityHash ≠
            (s.identities idNumber).uniqueIdentityHash := by
          intro he
          rw [he, hhu] at hhi
          exact hne hhi.symm
        rw [upd_ne _ _ _ hhn]
        exact hhi

/-- `IndexInv` is preserved by in-place record updates that keep the owner
and fingerprint fields (`verifyIdentity`, `updateIdentityData`). -/
lemma indexInv_modify (s s2 : State) (idNumber : Nat) (ident : Identity)
    (hex : (s.identities idNumber).owner ≠ 0)
    (hio : ident.owner = (s.identities idNumber).owner)
    (hih : ident.uniqueIdentityHash = (s.identities idNumber).uniqueIdentityHash)
    (hic : s2.idCounter = s.idCounter)
    (hid : s2.identities = upd s.identities idNumber ident)
    (hw : s2.walletToId = s.walletToId) (hh : s2.hashToId = s.hashToId)
    (h : IndexInv s) : IndexInv s2 := by
  obtain ⟨h0, h1, h2, h3, h4⟩ := h
  have hnum0 : (0 : Nat) ≠ idNumber := by
    intro h'
    rw [← h'] at hex
    exact hex h0
  have hbound : ¬ s.idCounter < idNumber := by
    intro hgt
    rw [h1 _ hgt] at hex
    exact hex rfl
  have key : ∀ k, ((upd s.identities idNumber ident) k).owner = (s.identities k).owner ∧
      ((upd s.identities idNumber ident) k).uniqueIdentityHash =
        (s.identities k).uniqueIdentityHash := by
    intro k
    rcases eq_or_ne k idNumber with rfl | hk
    · rw [upd_same]
      exact ⟨hio, hih⟩
    · rw [upd_ne _ _ _ hk]
      exact ⟨rfl, rfl⟩
  refine ⟨?_, ?_, ?_, ?_, ?_⟩
  · rw [hid, (key 0).1]
    exact h0
  · intro i hi
    rw [hic] at hi
    rw [hid, upd_ne _ _ _ (by omega : i ≠ idNumber)]
    exact h1 i hi
  · intro a ha
    rw [hw] at ha ⊢
    rw [hid, (key _).1]
    exact h2 a ha
  · intro f hf
    rw [hh] at hf ⊢
    rw [hid, (key _).1, (key _).2]
    exact h3 f hf
  · intro i hi
    rw [hid, (key i).1] at hi
    rw [hid, (key i).1, (key i).2, hw, hh]
    exact h4 i hi

lemma indexInv_step (op : Op) (s : State) (hop : op.ownerArgNonzero)
    (h : IndexInv s) : IndexInv (applyOp op s).2 := by
  cases op with
  | changeAdmin sender newAdmin =>
      simp only [applyOp, changeAdmin]
      split_ifs <;> exact indexInv_of_fields s _ rfl rfl rfl rfl h
  | requestIdentity sender now ipfsHash idType uniqueHash =>
      simp only [applyOp, requestIdentity]
      split_ifs <;> exact indexInv_of_fields s _ rfl rfl rfl rfl h
  | approveIDRequest sender now requestId expiryDuration =>
      simp only [applyOp, approveIDRequest]
      split_ifs with hc1 hc2 hc3 hc4 hc5 hc6 <;>
        try exact indexInv_of_fields s _ rfl rfl rfl rfl h
      all_goals
        exact indexInv_create s _ ((s.idRequests requestId).requester)
          ((s.idRequests requestId).uniqueIdentityHash) _ hc2 rfl rfl
          (hasIdentity_false hc4) (isHashRegistered_false hc5) rfl rfl rfl rfl h
  | rejectIDRequest sender requestId reason =>
      simp only [applyOp, rejectIDRequest]
      split_ifs <;> exact indexInv_of_fields s _ rfl rfl rfl rfl h
  | createIdentity sender now owner ipfsHash expiryDuration idType uniqueHash =>
      simp only [Op.ownerArgNonzero] at hop
      simp only [applyOp, createIdentity]
      split_ifs with hc1 hc2 hc3 hc4 <;>
        try exact indexInv_of_fields s _ rfl rfl rfl rfl h
      all_goals
        exact indexInv_create s _ owner uniqueHash _ hop rfl rfl
          (hasIdentity_false hc2) (isHashRegistered_false hc3) rfl rfl rfl rfl h
  | verifyIdentity sender idNumber =>
      simp only [applyOp, verifyIdentity]
      split_ifs with hc1 hc2 hc3 <;>
        try exact indexInv_of_fields s _ rfl rfl rfl rfl h
      exact indexInv_modify s _ idNumber
        { s.identities idNumber with isVerified := true } hc2 rfl rfl rfl rfl rfl rfl h
  | revokeIdentity sender idNumber =>
      simp only [applyOp, revokeIdentity]
      split_ifs with hc1 hc2 <;>
        try exact indexInv_of_fields s _ rfl rfl rfl rfl h
      exact indexInv_revoke s _ idNumber hc1 rfl rfl rfl rfl h
  | updateIdentityData sender idNumber newIpfsHash =>
      simp only [applyOp, updateIdentityData]
      split_ifs with hc1 hc2 <;>
        try exact indexInv_of_fields s _ rfl rfl rfl rfl h
      exact indexInv_modify s _ idNumber
        { s.identities idNumber with ipfsHash := newIpfsHash } hc1 rfl rfl rfl rfl rfl rfl h
  | addVerifier sender verifier =>
      simp only [applyOp, addVerifier]
      split_ifs <;> exact indexInv_of_fields s _ rfl rfl rfl rfl h
  | removeVerifier sender verifier =>
      simp only [applyOp, removeVerifier]
      split_ifs <;> exact indexInv_of_fields s _ rfl rfl rfl rfl h

lemma indexInv_init (deployer adminW : Nat) : IndexInv (initState deployer adminW) :=
  ⟨rfl, fun _ _ => rfl, fun _ ha => absurd rfl ha, fun _ hf => absurd rfl hf,
   fun _ hi => absurd rfl hi⟩

lemma indexInv_reachableNZ (s : State) (hs : ReachableNZ s) : IndexInv s := by
  induction hs with
  | init deployer adminW => exact indexInv_init deployer adminW
  | step s' op hs hop ih => exact indexInv_step op s' hop ih

lemma uniqueAndIndexed_of_indexInv (s : State) (h : IndexInv s) : UniqueAndIndexed s := by
  obtain ⟨h0, h1, h2, h3, h4⟩ := h
  refine ⟨?_, ?_, ?_, ?_, fun i hi => h4 i hi⟩
  · intro i j hi hj he
    have hwi := (h4 i hi).1
    have hwj := (h4 j hj).1
    rw [he] at hwi
    exact hwi.symm.trans hwj
  · intro i j hi hj he
    have hwi := (h4 i hi).2
    have hwj := (h4 j hj).2
    rw [he] at hwi
    exact hwi.symm.trans hwj
  · intro a ha
    obtain ⟨hoa, ha0⟩ := h2 a ha
    refine ⟨?_, hoa⟩
    show (s.identities (s.walletToId a)).owner ≠ 0
    rw [hoa]
    exact ha0
  · intro f hf
    obtain ⟨hhf, hof⟩ := h3 f hf
    exact ⟨hof, hhf⟩

/-- C1 counterexample: the claim fails as stated.  The state reached from a
fresh deployment by the single (admin-called) operation
`createIdentity(address(0), "m", 0, "t", 5)` is reachable, yet its
fingerprint index maps hash `5` to id `1` while no identity exists under
id `1` (the minted record's owner is the zero address, which is the
contract's own "does not exist" sentinel) — so the non-zero index entry
does not point to an existing Identity. -/
theorem uniqueness_and_index_agreement_cex :
    Reachable ((applyOp (.createIdentity 2 0 0 "m" 0 "t" 5) (initState 1 2)).2) ∧
    ¬ UniqueAndIndexed ((applyOp (.createIdentity 2 0 0 "m" 0 "t" 5) (initState 1 2)).2) :=
  ⟨Reachable.step _ _ (Reachable.init 1 2),
   fun hq => (hq.2.2.2.1 5 Nat.one_ne_zero).1 rfl⟩

/-- C1 (amended): in every state reachable by registry operations in which
the direct-creation path is never invoked with the zero address as the new
identity's owner, each address owns at most one Identity, each fingerprint
is bound to at most one Identity, every non-zero index entry points to an
existing Identity with that owner resp. fingerprint, and every existing
Identity is indexed under its owner and its fingerprint. -/
theorem uniqueness_and_index_agreement (s : State) (hs : ReachableNZ s) :
    UniqueAndIndexed s :=
  uniqueAndIndexed_of_indexInv s (indexInv_reachableNZ s hs)

/-- Witness for `uniqueness_and_index_agreement`: the state after a fresh
deployment followed by one admin-created identity for address `3`. -/
theorem uniqueness_and_index_agreement_witness :
    UniqueAndIndexed ((applyOp (.createIdentity 2 0 3 "m" 0 "t" 7) (initState 1 2)).2) :=
  uniqueness_and_index_agreement _
    (ReachableNZ.step _ _ (ReachableNZ.init 1 2) (show (3 : Nat) ≠ 0 by omega))

/-! ## C5: revocation frees both index slots for reuse -/

/-- C5 counterexample: the claim fails as stated for the submit-then-approve
path.  Address `3` first submits a request with fingerprint `7` (left
pending), the admin then mints a direct identity for `3` with the same
fingerprint `7` (pending requests reserve nothing), and `3` revokes it.
The revocation succeeds on an identity with owner `3` and fingerprint `7`,
yet the immediately following `requestIdentity` by `3` with fingerprint `7`
fails with the duplicate-pending-request error (the stale pending request
blocks the caller's own scan), so "submit-then-approve for the same owner
and fingerprint succeeds" does not hold. -/
theorem revoke_then_recreate_cex :
    (((createIdentity 2 0 3 "m2" 0 "t2" 7
        ((requestIdentity 3 0 "m1" "t" 7 (initState 1 2)).2)).2).identities 1).owner = 3 ∧
    (((createIdentity 2 0 3 "m2" 0 "t2" 7
        ((requestIdentity 3 0 "m1" "t" 7 (initState 1 2)).2)).2).identities
        1).uniqueIdentityHash = 7 ∧
    (revokeIdentity 3 1 ((createIdentity 2 0 3 "m2" 0 "t2" 7
        ((requestIdentity 3 0 "m1" "t" 7 (initState 1 2)).2)).2)).1 = .ok () ∧
    (requestIdentity 3 1 "m3" "t" 7
        ((revokeIdentity 3 1 ((createIdentity 2 0 3 "m2" 0 "t2" 7
          ((requestIdentity 3 0 "m1" "t" 7 (initState 1 2)).2)).2)).2)).1 =
      .error (.duplicatePendingRequest "BlockID: a request with this hash is already pending") :=
  ⟨rfl, rfl, rfl, rfl⟩

/-- C5 (amended): after a successful `revokeIdentity` of an identity with
owner `a` and fingerprint `f`, the wallet-index entry of `a` and the
fingerprint-index entry of `f` are cleared to the zero sentinel and the
record is deleted; an immediately following admin direct creation for the
same `a` and `f` always succeeds with the fresh id number `idCounter + 1`,
and an immediately following submit-then-approve for the same `a` and `f`
succeeds with the same fresh id number provided `a` has no leftover pending
request carrying fingerprint `f`. -/
theorem revoke_frees_and_allows_recreation (sender idNumber a f : Nat) (s s1 : State)
    (hown : (s.identities idNumber).owner = a)
    (hfp : (s.identities idNumber).uniqueIdentityHash = f)
    (h : revokeIdentity sender idNumber s = (.ok (), s1)) :
    s1.walletToId a = 0 ∧ s1.hashToId f = 0 ∧ s1.identities idNumber = Identity.empty ∧
    (∀ now ipfs dur t, ∃ s2,
        createIdentity s1.adminWallet now a ipfs dur t f s1 =
          (.ok (s1.idCounter + 1), s2)) ∧
    (∀ now ipfs t, hasPendingDup s1 a f = false →
        ∃ s2 s3,
          requestIdentity a now ipfs t f s1 = (.ok (s1.requestCounter + 1), s2) ∧
          approveIDRequest s2.adminWallet now (s1.requestCounter + 1) 0 s2 =
            (.ok (s1.idCounter + 1), s3) ∧
          (s3.identities (s1.idCounter + 1)).owner = a ∧
          (s3.identities (s1.idCounter + 1)).uniqueIdentityHash = f) := by
  subst hown
  subst hfp
  unfold revokeIdentity at h
  split_ifs at h with hc1 hc2
  · simp at h
  · simp only [Prod.mk.injEq] at h
    obtain ⟨-, hs1⟩ := h
    subst hs1
    refine ⟨upd_same _ _ _, upd_same _ _ _, upd_same _ _ _, ?_, ?_⟩
    · intro now2 ipfs dur t
      exact ⟨_, createIdentity_ok rfl (by simp [hasIdentity, upd])
        (by simp [isHashRegistered, upd])⟩
    · intro now2 ipfs t hpd
      refine ⟨_, _, requestIdentity_ok (by simp [hasIdentity, upd])
        (by simp [isHashRegistered, upd]) hpd, approveIDRequest_ok rfl
        (by simpa [upd] using hc1) (by simp [upd]) (by simp [hasIdentity, upd])
        (by simp [isHashRegistered, upd]), ?_, ?_⟩
      · simp [upd]
      · simp [upd]
  · simp at h

/-- Witness for `revoke_frees_and_allows_recreation`: the admin mints an
identity for address `3` with fingerprint `7` on a fresh registry, `3`
revokes it, and both index slots read the zero sentinel afterwards. -/
theorem revoke_frees_and_allows_recreation_witness :
    ((revokeIdentity 3 1 ((createIdentity 2 0 3 "m" 0 "t" 7 (initState 1 2)).2)).2).walletToId
        3 = 0 ∧
    ((revokeIdentity 3 1 ((createIdentity 2 0 3 "m" 0 "t" 7 (initState 1 2)).2)).2).hashToId
        7 = 0 := by
  have h := revoke_frees_and_allows_recreation 3 1 3 7
    ((createIdentity 2 0 3 "m" 0 "t" 7 (initState 1 2)).2)
    ((revokeIdentity 3 1 ((createIdentity 2 0 3 "m" 0 "t" 7 (initState 1 2)).2)).2)
    rfl rfl rfl
  exact ⟨h.1, h.2.1⟩

end BlockID
